import Mathlib

/-!
Verification of the OllamaDiscordBot prompt-relay pipeline and preference
store (src/OllamaDiscordBot.py) against its natural-language specification.

Python strings are modelled as lists of characters; the Python string
operations used by the bot (strip, lower, slicing, concatenation, f-string
interpolation) are embedded as functions on those lists.  Stateful pieces
(the user_languages dictionary) are embedded by explicit state passing.
Exceptions raised and caught inside call_ollama_api are embedded with an
Except monad over an explicit exception-kind type.
-/

/-- Embedding of Python str.strip: drop whitespace from both ends. -/
def pyStrip (s : List Char) : List Char :=
  ((s.dropWhile Char.isWhitespace).reverse.dropWhile Char.isWhitespace).reverse

/-- Embedding of Python str.lower (ASCII fragment, which covers every
comparison the bot performs). -/
def pyLower (s : List Char) : List Char :=
  s.map Char.toLower

/-- Convenience: the character list of a Lean string literal. -/
def pstr (s : String) : List Char := s.toList

/-- The reset keyword list of set_language, line 143 of the source:
[ the strings default, reset, english, en and the empty string ]. -/
def resetKeywords : List (List Char) :=
  [pstr "default", pstr "reset", pstr "english", pstr "en", pstr ""]

/-- The user_languages dictionary (line 36), modelled as a total map from
user id to an optionally stored instruction string. -/
def Store : Type := Nat → Option (List Char)

/-- Initial value of user_languages: the empty dictionary (line 36). -/
def user_languages_init : Store := fun _ => none

/-- Embedding of the body of set_language (lines 139 to 153), restricted to
its effect on the dictionary: if language_name.lower() is one of the reset
keywords the entry for user_id is deleted, otherwise the instruction
string built from the f-string at line 150 is stored.  Note the source
lowercases but does not strip language_name. -/
def set_language (st : Store) (user_id : Nat) (language_name : List Char) : Store :=
  if pyLower language_name ∈ resetKeywords then
    fun u => if u = user_id then none else st u
  else
    fun u =>
      if u = user_id then some (pstr "Answer me in " ++ language_name ++ pstr ".")
      else st u

/-- Embedding of user_languages.get(user_id, "") at line 122: the stored
instruction, or the empty string when none is stored.  Python dict.get does
not mutate the dictionary, so the embedding is a pure read. -/
def store_get (st : Store) (user_id : Nat) : List Char :=
  (st user_id).getD []

/-- The fixed short-answer directive, line 37 of the source. -/
def SHORT_ANSWER_PROMPT : List Char :=
  pstr "Give me a short answer but don\x27t mention that I\x27ve asked you to make it short."

/-- Embedding of the f-string plus strip at line 125: the composed prompt
sent to the backend. -/
def full_prompt (language_instruction prompt_text : List Char) : List Char :=
  pyStrip (language_instruction ++ pstr " " ++ SHORT_ANSWER_PROMPT ++ pstr " " ++ prompt_text)

/-- The fixed substitute sent when the relay produced an empty string,
line 135 of the source. -/
def noResponseMsg : List Char := pstr "The AI didn\x27t provide a response."

/-- Embedding of the output adaptation at lines 131 to 137: truncate to
1997 characters plus a three-character ellipsis when over 2000, substitute
the fixed message when empty, otherwise pass through. -/
def adapt_response (response_text : List Char) : List Char :=
  if 2000 < response_text.length then response_text.take 1997 ++ pstr "..."
  else if response_text = [] then noResponseMsg
  else response_text

/-- JSON values, as decoded by response.json() at line 62. -/
inductive Json where
  | str (s : List Char)
  | num (n : Int)
  | bool (b : Bool)
  | null
  | arr (elems : List Json)
  | obj (fields : List (List Char × Json))

/-- Kinds of Python exception the normalization code can raise after a
successful JSON decode. -/
inductive PyExc where
  | typeError
  | attributeError
  | keyError (key : List Char)
deriving DecidableEq

/-- Modelled text of str(e) for the catch-all message at line 89.  No claim
depends on the exact wording, only on which handler runs. -/
def excDetail : PyExc → List Char
  | PyExc.typeError => pstr "TypeError"
  | PyExc.attributeError => pstr "AttributeError"
  | PyExc.keyError k => k

/-- Dictionary lookup: the value stored under a key, if any. -/
def jlookup : List (List Char × Json) → List Char → Option Json
  | [], _ => none
  | (k, v) :: rest, key => if k = key then some v else jlookup rest key

/-- Python membership of a string inside a list value: true when some
element equals that string (equality with a non-string element is false). -/
def hasStrElem (k : List Char) : List Json → Bool
  | [] => false
  | Json.str s :: rest => (s = k) || hasStrElem k rest
  | _ :: rest => hasStrElem k rest

/-- Embedding of the Python expression key in value: key membership for a
dictionary, substring test for a string, element equality for a list, and
a TypeError for every other value. -/
def pyContains (v : Json) (k : List Char) : Except PyExc Bool :=
  match v with
  | Json.obj fields => Except.ok (jlookup fields k).isSome
  | Json.str s => Except.ok (decide (k <:+: s))
  | Json.arr es => Except.ok (hasStrElem k es)
  | _ => Except.error PyExc.typeError

/-- Embedding of the Python subscript value[key] with a string key: a
dictionary lookup that raises KeyError when the key is absent, and a
TypeError on every non-dictionary value. -/
def pyGetItem (v : Json) (k : List Char) : Except PyExc Json :=
  match v with
  | Json.obj fields =>
    match jlookup fields k with
    | some j => Except.ok j
    | none => Except.error (PyExc.keyError k)
  | _ => Except.error PyExc.typeError

/-- Embedding of the Python call value.strip(): defined on strings only,
an AttributeError on every other value. -/
def pyStripAttr (v : Json) : Except PyExc (List Char) :=
  match v with
  | Json.str s => Except.ok (pyStrip s)
  | _ => Except.error PyExc.attributeError

/-- Key literals used by the normalization code. -/
def msgKey : List Char := pstr "message"

/-- Key literal content. -/
def contentKey : List Char := pstr "content"

/-- Key literal response. -/
def respKey : List Char := pstr "response"

/-- The fixed unexpected-format message returned at line 73. -/
def unexpectedFormatMsg : List Char :=
  pstr "Error: Received an unexpected response format from the AI."

/-- Embedding of the normalization logic at lines 64 to 73 of
call_ollama_api, applied to the decoded JSON body.  The conjunction at
line 66 is evaluated left to right with Python short-circuiting, and the
subscripts in the return expression at line 67 are re-evaluated, exactly
as in the source. -/
def extract_content (response_data : Json) : Except PyExc (List Char) :=
  match pyContains response_data msgKey with
  | Except.error e => Except.error e
  | Except.ok has_message =>
    match (if has_message then
             match pyGetItem response_data msgKey with
             | Except.error e => Except.error e
             | Except.ok m => pyContains m contentKey
           else Except.ok false) with
    | Except.error e => Except.error e
    | Except.ok cond1 =>
      if cond1 then
        match pyGetItem response_data msgKey with
        | Except.error e => Except.error e
        | Except.ok m =>
          match pyGetItem m contentKey with
          | Except.error e => Except.error e
          | Except.ok c => pyStripAttr c
      else
        match pyContains response_data respKey with
        | Except.error e => Except.error e
        | Except.ok has_resp =>
          if has_resp then
            match pyGetItem response_data respKey with
            | Except.error e => Except.error e
            | Except.ok r => pyStripAttr r
          else
            Except.ok unexpectedFormatMsg

/-- Recognizer for a KeyError outcome of normalization, used to state that
the KeyError handler at lines 84 to 86 is dead code. -/
def isKeyErrorResult : Except PyExc (List Char) → Bool
  | Except.error (PyExc.keyError _) => true
  | _ => false

/-- Result of the HTTP POST at lines 56 to 59, as seen by the try block:
a timeout, a transport-level failure, or a response carrying a status code
and a body that either is or is not parseable as JSON. -/
inductive BodyParse where
  | invalid (raw : List Char)
  | parsed (v : Json)

/-- Outcome of the dispatch step. -/
inductive HttpOutcome where
  | timeout
  | connError (detail : List Char)
  | success (status : Nat) (body : BodyParse)

/-- The fixed timeout message returned at line 77. -/
def timeoutMsg : List Char := pstr "Error: The request to the AI timed out."

/-- The transport-failure message built by the f-string at line 80,
containing the configured endpoint and the error detail. -/
def connectErrorMsg (url detail : List Char) : List Char :=
  pstr "Error: Could not connect to the AI service at " ++ url ++
    pstr ". Details: " ++ detail

/-- The fixed invalid-JSON message returned at line 83. -/
def invalidJsonMsg : List Char :=
  pstr "Error: Received an invalid response from the AI."

/-- The fixed incomplete-format message returned at line 86. -/
def incompleteFormatMsg : List Char :=
  pstr "Error: Received an incomplete response format from the AI."

/-- The catch-all message built by the f-string at line 89. -/
def catchAllMsg (detail : List Char) : List Char :=
  pstr "An unexpected error occurred while contacting the AI. Details: " ++ detail

/-- Modelled text of the HTTPError raised by raise_for_status at line 60
for a status in 400 to 599; it mentions the status and the url. -/
def httpStatusDetail (status : Nat) (url : List Char) : List Char :=
  pstr (toString status) ++ pstr " Error for url: " ++ url

/-- Embedding of call_ollama_api (lines 44 to 89) as a function of the
dispatch outcome.  raise_for_status raises exactly for statuses 400 to
599; the handler chain maps a timeout to the fixed timeout message, a
transport failure or bad status to the connect-error message, an
unparseable body to the fixed invalid-JSON message, a KeyError to the
fixed incomplete-format message, and every other exception to the
catch-all message. -/
def call_ollama_api (url : List Char) (outcome : HttpOutcome) : List Char :=
  match outcome with
  | HttpOutcome.timeout => timeoutMsg
  | HttpOutcome.connError detail => connectErrorMsg url detail
  | HttpOutcome.success status body =>
    if 400 ≤ status ∧ status ≤ 599 then
      connectErrorMsg url (httpStatusDetail status url)
    else
      match body with
      | BodyParse.invalid _ => invalidJsonMsg
      | BodyParse.parsed d =>
        match extract_content d with
        | Except.ok s => s
        | Except.error (PyExc.keyError _) => incompleteFormatMsg
        | Except.error e => catchAllMsg (excDetail e)

/-- Embedding of the slice response.text[:200] logged at line 82 when the
body fails to decode as JSON. -/
def json_decode_log_snippet (raw : List Char) : List Char :=
  raw.take 200

/-- Helper: every reset keyword is fixed by pyStrip. -/
lemma resetKeywords_strip_fixed :
    ∀ k ∈ resetKeywords, pyStrip k = k := by
  intro k hk
  simp only [resetKeywords, List.mem_cons, List.not_mem_nil, or_false] at hk
  rcases hk with h | h | h | h | h <;> subst h <;> decide

/-- Helper: if the stripped lowercase form avoids the keyword list, so does
the unstripped lowercase form. -/
lemma lower_not_mem_of_strip_lower_not_mem {name : List Char}
    (h : pyStrip (pyLower name) ∉ resetKeywords) :
    pyLower name ∉ resetKeywords := by
  intro hmem
  exact h (by rw [resetKeywords_strip_fixed _ hmem]; exact hmem)

/-- C1 counterexample: the claim asserts trimming before the keyword
comparison, but set_language only lowercases.  The input consisting of the
word default followed by a space trims to a reset keyword, yet set stores
an instruction, so the subsequent get is not the empty string. -/
theorem C1_counterexample :
    pyStrip (pyLower (pstr "default ")) ∈ resetKeywords ∧
    store_get (set_language user_languages_init 1 (pstr "default ")) 1 ≠ [] := by
  constructor
  · decide
  · intro h
    have : store_get (set_language user_languages_init 1 (pstr "default ")) 1 =
        pstr "Answer me in default ." := by
      simp only [set_language, store_get, user_languages_init]
      norm_num
      decide
    rw [this] at h
    exact absurd h (by decide)

/-- C1 (amended): for every language_name whose lowercase form, without any
trimming, is one of the reset keywords, set_language removes the stored
entry for that user, so a subsequent get for that user returns the empty
string. -/
theorem C1_amended (st : Store) (uid : Nat) (name : List Char)
    (h : pyLower name ∈ resetKeywords) :
    (set_language st uid name) uid = none ∧
    store_get (set_language st uid name) uid = [] := by
  constructor
  · simp [set_language, h]
  · simp [store_get, set_language, h]

/-- C1 witness: the amended theorem applied at the literal keyword default. -/
theorem C1_amended_witness :
    (set_language user_languages_init 7 (pstr "default")) 7 = none ∧
    store_get (set_language user_languages_init 7 (pstr "default")) 7 = [] :=
  C1_amended user_languages_init 7 (pstr "default") (by decide)

/-- C7: for every non-empty language_name that is not a reset keyword even
after trimming and lowercasing, set followed by get returns exactly the
instruction built from the language name; and get with no prior set
returns the empty string. -/
theorem C7_set_then_get (st : Store) (uid other : Nat) (name : List Char)
    (hne : name ≠ [])
    (hmem : pyStrip (pyLower name) ∉ resetKeywords) :
    store_get (set_language st uid name) uid =
      pstr "Answer me in " ++ name ++ pstr "." ∧
    store_get user_languages_init other = [] := by
  have h := lower_not_mem_of_strip_lower_not_mem hmem
  constructor
  · simp [store_get, set_language, h]
  · simp [store_get, user_languages_init]

/-- C7 witness: the theorem applied at the language name french. -/
theorem C7_set_then_get_witness :
    store_get (set_language user_languages_init 5 (pstr "french")) 5 =
      pstr "Answer me in " ++ pstr "french" ++ pstr "." ∧
    store_get user_languages_init 9 = [] :=
  C7_set_then_get user_languages_init 5 9 (pstr "french") (by decide) (by decide)

/-- C10: set_language for user A, whether it stores or resets, leaves the
entry and the get result of every other user B unchanged; get is embedded
as a pure read of the dictionary and so never mutates it. -/
theorem C10_frame (st : Store) (A B : Nat) (name : List Char) (hAB : A ≠ B) :
    (set_language st A name) B = st B ∧
    store_get (set_language st A name) B = store_get st B := by
  have hBA : ¬ (B = A) := fun h => hAB h.symm
  constructor
  · simp only [set_language]
    split <;> simp [hBA]
  · simp only [store_get, set_language]
    split <;> simp [hBA]

/-- C10 witness: concrete distinct users, one storing write. -/
theorem C10_frame_witness :
    (set_language user_languages_init 1 (pstr "spanish")) 2 =
      user_languages_init 2 ∧
    store_get (set_language user_languages_init 1 (pstr "spanish")) 2 =
      store_get user_languages_init 2 :=
  C10_frame user_languages_init 1 2 (pstr "spanish") (by decide)

/-- Helper: every transport-failure message starts with the same fixed
characters, whatever the endpoint and detail are. -/
lemma connectErrorMsg_fixed_head (url detail : List Char) :
    pstr "Error: Could not connect" <+: connectErrorMsg url detail := by
  have h : connectErrorMsg url detail =
      pstr "Error: Could not connect to the AI service at " ++
        (url ++ (pstr ". Details: " ++ detail)) := by
    simp [connectErrorMsg, List.append_assoc]
  rw [h]
  exact List.IsPrefix.trans (by decide) (List.prefix_append _ _)

/-- C4: output adaptation is exactly the three-case function of the relay
result: over 2000 characters it sends the first 1997 plus a three-character
ellipsis, exactly 2000 characters in total; the empty string becomes the
fixed no-response substitute; anything else is sent unchanged. -/
theorem C4_output_adaptation (s : List Char) :
    (2000 < s.length →
      adapt_response s = s.take 1997 ++ pstr "..." ∧
      (adapt_response s).length = 2000) ∧
    (s = [] → adapt_response s = noResponseMsg) ∧
    (s ≠ [] → s.length ≤ 2000 → adapt_response s = s) := by
  refine ⟨fun h => ?_, fun h => ?_, fun h1 h2 => ?_⟩
  · have he : adapt_response s = s.take 1997 ++ pstr "..." := by
      simp [adapt_response, h]
    refine ⟨he, ?_⟩
    rw [he]
    simp only [List.length_append, List.length_take]
    have : min 1997 s.length = 1997 := Nat.min_eq_left (by omega)
    rw [this]
    decide
  · subst h
    simp [adapt_response]
  · rw [adapt_response, if_neg (by omega), if_neg h1]

/-- C4 witness: a 2500-character result becomes exactly 2000 characters,
the empty result becomes the substitute, a short result passes through. -/
theorem C4_output_adaptation_witness :
    (adapt_response (List.replicate 2500 'a')).length = 2000 ∧
    adapt_response [] = noResponseMsg ∧
    adapt_response (pstr "hi") = pstr "hi" :=
  ⟨((C4_output_adaptation (List.replicate 2500 'a')).1
      (by rw [ List.length_replicate]; omega)).2,
   (C4_output_adaptation []).2.1 rfl,
   (C4_output_adaptation (pstr "hi")).2.2 (by decide) (by decide)⟩

/-- C2: when the HTTP call succeeds with a 2xx status but the body is not
parseable as JSON, the relay returns the fixed invalid-response message,
which is not a transport-failure message (those all start with the fixed
head of connectErrorMsg, see connectErrorMsg_fixed_head), and the logged
portion of the raw body is the 200-character slice, a prefix of the body
of length at most 200. -/
theorem C2_invalid_json (url raw : List Char) (status : Nat)
    (h1 : 200 ≤ status) (h2 : status < 300) :
    call_ollama_api url (HttpOutcome.success status (BodyParse.invalid raw)) =
      invalidJsonMsg ∧
    ¬ (pstr "Error: Could not connect" <+: invalidJsonMsg) ∧
    json_decode_log_snippet raw <+: raw ∧
    (json_decode_log_snippet raw).length ≤ 200 := by
  refine ⟨?_, by decide, List.take_prefix _ _, ?_⟩
  · rw [call_ollama_api, if_neg (by omega)]
  · simp only [json_decode_log_snippet, List.length_take]
    omega

/-- C2 witness: the theorem applied to a concrete malformed body at a
concrete endpoint and a 200 status. -/
theorem C2_invalid_json_witness :
    call_ollama_api (pstr "http://localhost:11434/api/chat")
        (HttpOutcome.success 200 (BodyParse.invalid (pstr "<html>oops</html>"))) =
      invalidJsonMsg ∧
    ¬ (pstr "Error: Could not connect" <+: invalidJsonMsg) ∧
    json_decode_log_snippet (pstr "<html>oops</html>") <+: pstr "<html>oops</html>" ∧
    (json_decode_log_snippet (pstr "<html>oops</html>")).length ≤ 200 :=
  C2_invalid_json (pstr "http://localhost:11434/api/chat")
    (pstr "<html>oops</html>") 200 (by decide) (by decide)

/-- C9 counterexample: a 300 status is not 2xx, yet raise_for_status does
not raise for it, so with a parseable body the relay returns the extracted
text rather than the could-not-reach message (which always starts with the
fixed head of connectErrorMsg). -/
theorem C9_counterexample :
    call_ollama_api (pstr "http://u")
        (HttpOutcome.success 300
          (BodyParse.parsed (Json.obj [(respKey, Json.str (pstr "ok"))]))) =
      pstr "ok" ∧
    ¬ (pstr "Error: Could not connect" <+: pstr "ok") := by
  constructor
  · decide
  · decide

/-- C9 (amended): a transport failure, and any HTTP status from 400 to 599,
yields the could-not-reach message, which contains the configured endpoint
and the error detail; a timeout yields the distinct fixed timeout message,
which does not start with the could-not-reach head.  Statuses outside 400
to 599 do not take this path. -/
theorem C9_amended (url detail : List Char) (status : Nat) (body : BodyParse)
    (h4 : 400 ≤ status) (h5 : status ≤ 599) :
    call_ollama_api url (HttpOutcome.connError detail) = connectErrorMsg url detail ∧
    url <:+: connectErrorMsg url detail ∧
    detail <:+ connectErrorMsg url detail ∧
    call_ollama_api url (HttpOutcome.success status body) =
      connectErrorMsg url (httpStatusDetail status url) ∧
    url <:+: connectErrorMsg url (httpStatusDetail status url) ∧
    call_ollama_api url HttpOutcome.timeout = timeoutMsg ∧
    ¬ (pstr "Error: Could not connect" <+: timeoutMsg) := by
  refine ⟨rfl, ?_, ?_, ?_, ?_, rfl, by decide⟩
  · exact ⟨pstr "Error: Could not connect to the AI service at ",
      pstr ". Details: " ++ detail, by simp [connectErrorMsg, List.append_assoc]⟩
  · exact ⟨pstr "Error: Could not connect to the AI service at " ++ url ++
      pstr ". Details: ", by simp [connectErrorMsg, List.append_assoc]⟩
  · simp only [call_ollama_api]
    rw [if_pos ⟨h4, h5⟩]
  · exact ⟨pstr "Error: Could not connect to the AI service at ",
      pstr ". Details: " ++ httpStatusDetail status url,
      by simp [connectErrorMsg, List.append_assoc]⟩

/-- C9 witness: the amended theorem at a concrete endpoint, detail and a
503 status. -/
theorem C9_amended_witness :
    call_ollama_api (pstr "http://u") (HttpOutcome.connError (pstr "refused")) =
      connectErrorMsg (pstr "http://u") (pstr "refused") ∧
    pstr "http://u" <:+: connectErrorMsg (pstr "http://u") (pstr "refused") ∧
    pstr "refused" <:+ connectErrorMsg (pstr "http://u") (pstr "refused") ∧
    call_ollama_api (pstr "http://u")
        (HttpOutcome.success 503 (BodyParse.invalid (pstr "busy"))) =
      connectErrorMsg (pstr "http://u") (httpStatusDetail 503 (pstr "http://u")) ∧
    pstr "http://u" <:+:
      connectErrorMsg (pstr "http://u") (httpStatusDetail 503 (pstr "http://u")) ∧
    call_ollama_api (pstr "http://u") HttpOutcome.timeout = timeoutMsg ∧
    ¬ (pstr "Error: Could not connect" <+: timeoutMsg) :=
  C9_amended (pstr "http://u") (pstr "refused") 503
    (BodyParse.invalid (pstr "busy")) (by decide) (by decide)

/-- Helper: dropWhile over a concatenation around a block that dropWhile
leaves unchanged keeps the block and everything after it intact. -/
lemma dropWhile_append_keep (p : Char → Bool) (a d b : List Char)
    (h1 : d.dropWhile p = d) (hne : d ≠ []) :
    ∃ a2, (a ++ d ++ b).dropWhile p = a2 ++ d ++ b := by
  have hdfalse : ¬ ((d.dropWhile p).isEmpty = true) := by
    rw [h1]
    cases d with
    | nil => exact absurd rfl hne
    | cons x xs => simp
  by_cases hE : (a.dropWhile p).isEmpty = true
  · refine ⟨[], ?_⟩
    rw [List.append_assoc, List.dropWhile_append, if_pos hE,
      List.dropWhile_append, if_neg hdfalse, h1, List.nil_append]
  · refine ⟨a.dropWhile p, ?_⟩
    rw [List.append_assoc, List.dropWhile_append, if_neg hE, List.append_assoc]

/-- Helper: a block with no leading or trailing whitespace survives
pyStrip of any concatenation around it as an infix. -/
lemma infix_pyStrip (a b d : List Char)
    (h1 : d.dropWhile Char.isWhitespace = d)
    (h2 : d.reverse.dropWhile Char.isWhitespace = d.reverse)
    (hne : d ≠ []) :
    d <:+: pyStrip (a ++ d ++ b) := by
  obtain ⟨a2, ha⟩ := dropWhile_append_keep Char.isWhitespace a d b h1 hne
  rw [pyStrip, ha]
  have hrev : (a2 ++ d ++ b).reverse = b.reverse ++ d.reverse ++ a2.reverse := by
    simp [List.reverse_append, List.append_assoc]
  rw [hrev]
  have hdne : d.reverse ≠ [] := by simpa using hne
  obtain ⟨b2, hb⟩ :=
    dropWhile_append_keep Char.isWhitespace b.reverse d.reverse a2.reverse h2 hdne
  rw [hb]
  have hrev2 : (b2 ++ d.reverse ++ a2.reverse).reverse = a2 ++ (d ++ b2.reverse) := by
    simp [List.reverse_append, List.append_assoc]
  rw [hrev2]
  exact List.infix_append' a2 d b2.reverse

/-- C8: the composed prompt equals the stripped concatenation of the
language instruction, a space, the fixed short-answer directive, a space
and the raw prompt; the directive always survives as a substring, so the
composed prompt is never empty. -/
theorem C8_prompt_composition (language_instruction prompt_text : List Char) :
    full_prompt language_instruction prompt_text =
      pyStrip (language_instruction ++ pstr " " ++ SHORT_ANSWER_PROMPT ++
        pstr " " ++ prompt_text) ∧
    SHORT_ANSWER_PROMPT <:+: full_prompt language_instruction prompt_text ∧
    full_prompt language_instruction prompt_text ≠ [] := by
  have hre : language_instruction ++ pstr " " ++ SHORT_ANSWER_PROMPT ++
      pstr " " ++ prompt_text =
      (language_instruction ++ pstr " ") ++ SHORT_ANSWER_PROMPT ++
        (pstr " " ++ prompt_text) := by
    simp [List.append_assoc]
  have hinf : SHORT_ANSWER_PROMPT <:+: full_prompt language_instruction prompt_text := by
    rw [full_prompt, hre]
    exact infix_pyStrip _ _ _ (by decide) (by decide) (by decide)
  exact ⟨rfl, hinf, hinf.ne_nil (by decide)⟩

/-- Helper: when the body is an object whose message field is an object
with a string content field, normalization returns that content stripped. -/
lemma extract_msg_content (fields m : List (List Char × Json)) (c : List Char)
    (hm : jlookup fields msgKey = some (Json.obj m))
    (hc : jlookup m contentKey = some (Json.str c)) :
    extract_content (Json.obj fields) = Except.ok (pyStrip c) := by
  simp [extract_content, pyContains, pyGetItem, pyStripAttr, hm, hc]

/-- Helper: when the message check fails cleanly (no message key, or the
message value is an object without a content key) and the body has a
string response field, normalization returns that response stripped. -/
lemma extract_resp (fields : List (List Char × Json)) (r : List Char)
    (hmsg : jlookup fields msgKey = none ∨
      (∃ m, jlookup fields msgKey = some (Json.obj m) ∧ jlookup m contentKey = none))
    (hr : jlookup fields respKey = some (Json.str r)) :
    extract_content (Json.obj fields) = Except.ok (pyStrip r) := by
  rcases hmsg with h | ⟨m, hm, hc⟩
  · simp [extract_content, pyContains, pyGetItem, pyStripAttr, h, hr]
  · simp [extract_content, pyContains, pyGetItem, pyStripAttr, hm, hc, hr]

/-- Helper: when the message check fails cleanly and there is no response
key either, normalization returns the fixed unexpected-format message. -/
lemma extract_unrecognized (fields : List (List Char × Json))
    (hmsg : jlookup fields msgKey = none ∨
      (∃ m, jlookup fields msgKey = some (Json.obj m) ∧ jlookup m contentKey = none))
    (hr : jlookup fields respKey = none) :
    extract_content (Json.obj fields) = Except.ok unexpectedFormatMsg := by
  rcases hmsg with h | ⟨m, hm, hc⟩
  · simp [extract_content, pyContains, pyGetItem, h, hr]
  · simp [extract_content, pyContains, pyGetItem, hm, hc, hr]

/-- C3 counterexample: a body whose message field is the string content
(not an object) and which carries a string response field.  The claim
requires the relay to fall through to the response field, but the code
evaluates the membership test content in the string, succeeds, then the
string subscript raises a TypeError, so the catch-all message is returned
instead of the trimmed response value. -/
theorem C3_counterexample :
    call_ollama_api (pstr "http://u")
        (HttpOutcome.success 200
          (BodyParse.parsed (Json.obj
            [(msgKey, Json.str contentKey), (respKey, Json.str (pstr "hi"))]))) =
      catchAllMsg (excDetail PyExc.typeError) ∧
    catchAllMsg (excDetail PyExc.typeError) ≠ pstr "hi" := by
  constructor
  · decide
  · decide

/-- C3 (amended): for a decoded JSON object body, with a 2xx status, the
precedence holds whenever each shape check resolves cleanly: a message
object with a string content field yields that content trimmed; otherwise,
when the message key is absent or its object value lacks a content key, a
string response field yields that value trimmed, and the absence of a
response key yields the fixed unexpected-format message.  When a shape
only partially matches (for example a non-object message value whose text
contains the word content), the code instead raises internally and returns
the catch-all message, as the counterexample shows. -/
theorem C3_amended (url : List Char) (status : Nat)
    (fields : List (List Char × Json)) (c r : List Char)
    (h2 : 200 ≤ status) (h3 : status < 300) :
    ((∃ m, jlookup fields msgKey = some (Json.obj m) ∧
        jlookup m contentKey = some (Json.str c)) →
      call_ollama_api url (HttpOutcome.success status (BodyParse.parsed (Json.obj fields))) =
        pyStrip c) ∧
    ((jlookup fields msgKey = none ∨
        (∃ m, jlookup fields msgKey = some (Json.obj m) ∧ jlookup m contentKey = none)) →
      jlookup fields respKey = some (Json.str r) →
      call_ollama_api url (HttpOutcome.success status (BodyParse.parsed (Json.obj fields))) =
        pyStrip r) ∧
    ((jlookup fields msgKey = none ∨
        (∃ m, jlookup fields msgKey = some (Json.obj m) ∧ jlookup m contentKey = none)) →
      jlookup fields respKey = none →
      call_ollama_api url (HttpOutcome.success status (BodyParse.parsed (Json.obj fields))) =
        unexpectedFormatMsg) := by
  have hif : ¬ (400 ≤ status ∧ status ≤ 599) := by omega
  refine ⟨fun ⟨m, hm, hc⟩ => ?_, fun hmsg hr => ?_, fun hmsg hr => ?_⟩
  · simp only [call_ollama_api]
    rw [if_neg hif, extract_msg_content fields m c hm hc]
  · simp only [call_ollama_api]
    rw [if_neg hif, extract_resp fields r hmsg hr]
  · simp only [call_ollama_api]
    rw [if_neg hif, extract_unrecognized fields hmsg hr]

/-- C3 witness: the amended theorem applied to the three concrete shapes:
a chat-completion body, a completion-style body, and an unrecognized body. -/
theorem C3_amended_witness :
    call_ollama_api (pstr "http://u")
        (HttpOutcome.success 200 (BodyParse.parsed (Json.obj
          [(msgKey, Json.obj [(contentKey, Json.str (pstr " X "))])]))) =
      pyStrip (pstr " X ") ∧
    call_ollama_api (pstr "http://u")
        (HttpOutcome.success 200 (BodyParse.parsed (Json.obj
          [(respKey, Json.str (pstr " Y "))]))) =
      pyStrip (pstr " Y ") ∧
    call_ollama_api (pstr "http://u")
        (HttpOutcome.success 200 (BodyParse.parsed (Json.obj
          [(pstr "foo", Json.str (pstr "bar"))]))) =
      unexpectedFormatMsg :=
  ⟨(C3_amended (pstr "http://u") 200
      [(msgKey, Json.obj [(contentKey, Json.str (pstr " X "))])]
      (pstr " X ") (pstr " X ") (by decide) (by decide)).1
      ⟨[(contentKey, Json.str (pstr " X "))], rfl, rfl⟩,
   (C3_amended (pstr "http://u") 200
      [(respKey, Json.str (pstr " Y "))]
      (pstr " Y ") (pstr " Y ") (by decide) (by decide)).2.1
      (Or.inl rfl) rfl,
   (C3_amended (pstr "http://u") 200
      [(pstr "foo", Json.str (pstr "bar"))]
      (pstr "z") (pstr "z") (by decide) (by decide)).2.2
      (Or.inl rfl) rfl⟩

/-- Helper: the membership test only ever raises a TypeError. -/
lemma pyContains_err {v : Json} {k : List Char} {e : PyExc}
    (h : pyContains v k = Except.error e) : e = PyExc.typeError := by
  cases v <;> simp [pyContains] at h <;> exact h.symm

/-- Helper: after a membership test succeeded with true, the subscript on
the same value with the same key either succeeds or raises a TypeError,
never a KeyError. -/
lemma pyGetItem_of_contains_true {v : Json} {k : List Char}
    (h : pyContains v k = Except.ok true) :
    (∃ j, pyGetItem v k = Except.ok j) ∨ pyGetItem v k = Except.error PyExc.typeError := by
  cases v with
  | obj fields =>
    simp only [pyContains, Except.ok.injEq] at h
    obtain ⟨j, hj⟩ := Option.isSome_iff_exists.mp h
    exact Or.inl ⟨j, by simp [pyGetItem, hj]⟩
  | str s => exact Or.inr rfl
  | arr es => exact Or.inr rfl
  | num n => simp [pyContains] at h
  | bool b => simp [pyContains] at h
  | null => simp [pyContains] at h

/-- Helper: the strip call never raises a KeyError. -/
lemma pyStripAttr_not_keyError (v : Json) (k2 : List Char) :
    pyStripAttr v ≠ Except.error (PyExc.keyError k2) := by
  cases v <;> simp [pyStripAttr]


/-- Helper: normalization never produces a KeyError, because each
subscript is guarded by a membership test on the same value and key, and
failed guards either fall through or raise a TypeError instead. -/
lemma extract_content_not_keyError (d : Json) (k : List Char) :
    extract_content d ≠ Except.error (PyExc.keyError k) := by
  intro hcontra
  unfold extract_content at hcontra
  split at hcontra
  next e heq =>
    have he := pyContains_err heq
    rw [he] at hcontra
    simp at hcontra
  next has_message heq =>
    split at hcontra
    next e2 heq2 =>
      have he2 : e2 = PyExc.keyError k := by simpa using hcontra
      split at heq2
      next hhm =>
        rw [hhm] at heq
        split at heq2
        next e3 heq3 =>
          have he3 : e3 = e2 := by simpa using heq2
          rcases pyGetItem_of_contains_true heq with ⟨j, hj⟩ | hj
          · rw [hj] at heq3
            simp at heq3
          · rw [hj] at heq3
            have : PyExc.typeError = e3 := by simpa using heq3
            simp_all
        next m heq3 =>
          have := pyContains_err heq2
          simp_all
      next _hhm =>
        simp at heq2
    next cond1 heq2 =>
      split at hcontra
      · next hcond =>
        rw [hcond] at heq2
        split at heq2
        next hhm =>
          rw [hhm] at heq
          rcases pyGetItem_of_contains_true heq with ⟨j, hj⟩ | hj
          · rw [hj] at heq2 hcontra
            simp only [Except.ok.injEq] at heq2 hcontra
            rcases pyGetItem_of_contains_true heq2 with ⟨c, hc⟩ | hc
            · rw [hc] at hcontra
              exact pyStripAttr_not_keyError c k (by simpa using hcontra)
            · rw [hc] at hcontra
              simp at hcontra
          · rw [hj] at heq2
            simp at heq2
        next _hhm =>
          simp at heq2
      · next hcond =>
        split at hcontra
        next e6 heq6 =>
          have := pyContains_err heq6
          simp_all
        next has_resp heq6 =>
          split at hcontra
          · next hresp =>
            rw [hresp] at heq6
            rcases pyGetItem_of_contains_true heq6 with ⟨r, hr⟩ | hr
            · rw [hr] at hcontra
              exact pyStripAttr_not_keyError r k (by simpa using hcontra)
            · rw [hr] at hcontra
              simp at hcontra
          · next _hresp =>
            simp at hcontra

/-- C5: the relay never propagates a fault: for every endpoint and every
dispatch outcome (timeout, transport failure, any status, unparseable
body, any decoded JSON body), call_ollama_api returns a plain string, and
that string is one of the taxonomy messages (timeout, could-not-reach,
invalid JSON, incomplete format, catch-all) or the normally extracted
text, which itself covers the unexpected-format message. -/
theorem C5_relay_total (url : List Char) (outcome : HttpOutcome) :
    call_ollama_api url outcome = timeoutMsg ∨
    (∃ detail, call_ollama_api url outcome = connectErrorMsg url detail) ∨
    call_ollama_api url outcome = invalidJsonMsg ∨
    call_ollama_api url outcome = incompleteFormatMsg ∨
    (∃ e, call_ollama_api url outcome = catchAllMsg (excDetail e)) ∨
    (∃ status d s, outcome = HttpOutcome.success status (BodyParse.parsed d) ∧
      extract_content d = Except.ok s ∧ call_ollama_api url outcome = s) := by
  cases outcome with
  | timeout => exact Or.inl rfl
  | connError detail => exact Or.inr (Or.inl ⟨detail, rfl⟩)
  | success status body =>
    by_cases hs : 400 ≤ status ∧ status ≤ 599
    · refine Or.inr (Or.inl ⟨httpStatusDetail status url, ?_⟩)
      simp only [call_ollama_api]
      rw [if_pos hs]
    · cases body with
      | invalid raw =>
        refine Or.inr (Or.inr (Or.inl ?_))
        simp only [call_ollama_api]
        rw [if_neg hs]
      | parsed d =>
        cases hext : extract_content d with
        | ok s =>
          refine Or.inr (Or.inr (Or.inr (Or.inr (Or.inr ⟨status, d, s, rfl, hext, ?_⟩))))
          simp only [call_ollama_api]
          rw [if_neg hs, hext]
        | error e =>
          cases e with
          | keyError k2 =>
            refine Or.inr (Or.inr (Or.inr (Or.inl ?_)))
            simp only [call_ollama_api]
            rw [if_neg hs, hext]
          | typeError =>
            refine Or.inr (Or.inr (Or.inr (Or.inr (Or.inl ⟨PyExc.typeError, ?_⟩))))
            simp only [call_ollama_api]
            rw [if_neg hs, hext]
          | attributeError =>
            refine Or.inr (Or.inr (Or.inr (Or.inr (Or.inl ⟨PyExc.attributeError, ?_⟩))))
            simp only [call_ollama_api]
            rw [if_neg hs, hext]

/-- C6: the KeyError branch of the relay is unreachable: no decoded JSON
body makes normalization produce a KeyError, so the incomplete-format
message can never be returned through that handler. -/
theorem C6_keyerror_unreachable (d : Json) :
    isKeyErrorResult (extract_content d) = false := by
  cases hext : extract_content d with
  | ok s => simp [isKeyErrorResult]
  | error e =>
    cases e with
    | typeError => simp [isKeyErrorResult]
    | attributeError => simp [isKeyErrorResult]
    | keyError k2 => exact absurd hext (extract_content_not_keyError d k2)

/-- C8 witness: the composed-prompt properties at a concrete instruction
and prompt. -/
theorem C8_prompt_composition_witness :
    full_prompt (pstr "Answer me in french.") (pstr "hello") =
      pyStrip (pstr "Answer me in french." ++ pstr " " ++ SHORT_ANSWER_PROMPT ++
        pstr " " ++ pstr "hello") ∧
    SHORT_ANSWER_PROMPT <:+: full_prompt (pstr "Answer me in french.") (pstr "hello") ∧
    full_prompt (pstr "Answer me in french.") (pstr "hello") ≠ [] :=
  C8_prompt_composition (pstr "Answer me in french.") (pstr "hello")
